import Mathlib

/-!
# Verification of the pyngus `Endpoint` lifecycle state machine

Shallow embedding of `src/python/pyngus/endpoint.py` (class `Endpoint`):
states and events are the integer codes of the source, the transition
table `_FSM` is a partial map from state to a partial map from event to
`(next-state, optional entry action)`, and the dispatch function
`_process_endpoint_event` is translated step by step, modelling each
Python list-indexing operation (which can raise `IndexError`) and each
dict lookup (which can raise `KeyError`) as an `Option` failure.

Entry actions and the error hook are no-ops in the base class (they only
log); an invocation is therefore modelled as a `HookCall` value appended
to a trace, recording the endpoint state the hook observes at the moment
it is invoked (hooks receive `self`, whose `_state` was already updated).
-/

namespace Pyngus

/-- Endpoint states (`Endpoint.STATE_*` in the source). -/
def STATE_UNINIT : Nat := 0

def STATE_PENDING : Nat := 1

def STATE_REQUESTED : Nat := 2

def STATE_CANCELLED : Nat := 3

def STATE_ABANDONED : Nat := 4

def STATE_ACTIVE : Nat := 5

def STATE_NEED_CLOSE : Nat := 6

def STATE_CLOSING : Nat := 7

def STATE_CLOSED : Nat := 8

def STATE_ERROR : Nat := 9

/-- `Endpoint.STATE_NAMES` from the source. -/
def STATE_NAMES : List String :=
  ["STATE_UNINIT", "STATE_PENDING", "STATE_REQUESTED",
   "STATE_CANCELLED", "STATE_ABANDONED", "STATE_ACTIVE",
   "STATE_NEED_CLOSE", "STATE_CLOSING", "STATE_CLOSED",
   "STATE_ERROR"]

/-- Endpoint events (`Endpoint.LOCAL_OPENED` etc. in the source). -/
def LOCAL_OPENED : Nat := 0

def LOCAL_CLOSED : Nat := 1

def REMOTE_OPENED : Nat := 2

def REMOTE_CLOSED : Nat := 3

/-- `Endpoint.EVENT_NAMES` from the source. -/
def EVENT_NAMES : List String :=
  ["LOCAL_OPENED", "LOCAL_CLOSED", "REMOTE_OPENED", "REMOTE_CLOSED"]

/-- The four overridable entry actions of the source
(`_ep_requested`, `_ep_active`, `_ep_need_close`, `_ep_closed`). -/
inductive Action where
  | requested
  | active
  | needClose
  | closed
deriving DecidableEq

/-- A recorded hook invocation: which hook ran, and the endpoint state it
observed (`self._state` at the moment of the call). The error hook also
records its message argument. -/
inductive HookCall where
  | requested (observed : Nat)
  | active (observed : Nat)
  | needClose (observed : Nat)
  | closed (observed : Nat)
  | error (observed : Nat) (msg : String)
deriving DecidableEq

/-- Invoking an entry action `lambda s: s._ep_xxx()` on an endpoint whose
current state is `observed` produces this trace record. -/
def actionCall (a : Action) (observed : Nat) : HookCall :=
  match a with
  | Action.requested => HookCall.requested observed
  | Action.active => HookCall.active observed
  | Action.needClose => HookCall.needClose observed
  | Action.closed => HookCall.closed observed

/-- Row `_FSM[STATE_UNINIT]` of the source table. -/
def fsmUninit (event : Nat) : Option (Nat × Option Action) :=
  if event = LOCAL_OPENED then some (STATE_PENDING, none)
  else if event = REMOTE_OPENED then some (STATE_REQUESTED, some Action.requested)
  else none

/-- Row `_FSM[STATE_PENDING]` of the source table. -/
def fsmPending (event : Nat) : Option (Nat × Option Action) :=
  if event = LOCAL_CLOSED then some (STATE_CANCELLED, none)
  else if event = REMOTE_OPENED then some (STATE_ACTIVE, some Action.active)
  else none

/-- Row `_FSM[STATE_REQUESTED]` of the source table. -/
def fsmRequested (event : Nat) : Option (Nat × Option Action) :=
  if event = LOCAL_OPENED then some (STATE_ACTIVE, some Action.active)
  else if event = REMOTE_CLOSED then some (STATE_ABANDONED, none)
  else none

/-- Row `_FSM[STATE_CANCELLED]` of the source table. -/
def fsmCancelled (event : Nat) : Option (Nat × Option Action) :=
  if event = REMOTE_OPENED then some (STATE_CLOSING, none)
  else none

/-- Row `_FSM[STATE_ABANDONED]` of the source table. -/
def fsmAbandoned (event : Nat) : Option (Nat × Option Action) :=
  if event = LOCAL_OPENED then some (STATE_NEED_CLOSE, some Action.needClose)
  else if event = LOCAL_CLOSED then some (STATE_CLOSED, some Action.closed)
  else none

/-- Row `_FSM[STATE_ACTIVE]` of the source table. -/
def fsmActive (event : Nat) : Option (Nat × Option Action) :=
  if event = LOCAL_CLOSED then some (STATE_CLOSING, none)
  else if event = REMOTE_CLOSED then some (STATE_NEED_CLOSE, some Action.needClose)
  else none

/-- Row `_FSM[STATE_NEED_CLOSE]` of the source table. -/
def fsmNeedClose (event : Nat) : Option (Nat × Option Action) :=
  if event = LOCAL_CLOSED then some (STATE_CLOSED, some Action.closed)
  else none

/-- Row `_FSM[STATE_CLOSING]` of the source table. -/
def fsmClosing (event : Nat) : Option (Nat × Option Action) :=
  if event = REMOTE_CLOSED then some (STATE_CLOSED, some Action.closed)
  else none

/-- Row `_FSM[STATE_CLOSED]` of the source table. -/
def fsmClosed (event : Nat) : Option (Nat × Option Action) :=
  if event = REMOTE_CLOSED then some (STATE_CLOSED, none)
  else none

/-- Row `_FSM[STATE_ERROR]` of the source table (terminal state). -/
def fsmError (event : Nat) : Option (Nat × Option Action) :=
  if event = LOCAL_OPENED then some (STATE_ERROR, none)
  else if event = LOCAL_CLOSED then some (STATE_ERROR, none)
  else if event = REMOTE_OPENED then some (STATE_ERROR, none)
  else if event = REMOTE_CLOSED then some (STATE_ERROR, none)
  else none

/-- `Endpoint._FSM`: the outer dict, keyed by current state.  A state for
which the dict has no key yields `none` (a `KeyError` in Python). -/
def _FSM (state : Nat) : Option (Nat → Option (Nat × Option Action)) :=
  if state = STATE_UNINIT then some fsmUninit
  else if state = STATE_PENDING then some fsmPending
  else if state = STATE_REQUESTED then some fsmRequested
  else if state = STATE_CANCELLED then some fsmCancelled
  else if state = STATE_ABANDONED then some fsmAbandoned
  else if state = STATE_ACTIVE then some fsmActive
  else if state = STATE_NEED_CLOSE then some fsmNeedClose
  else if state = STATE_CLOSING then some fsmClosing
  else if state = STATE_CLOSED then some fsmClosed
  else if state = STATE_ERROR then some fsmError
  else none

/-- An `Endpoint` instance: `_name`, `_state`, and the two expected-event
queues set by `__init__` when `_PROTON_VERSION < (0, 8)` (the
compatibility-shim mode). -/
structure Endpoint where
  name : String
  state : Nat
  remote_events : List Nat
  local_events : List Nat
deriving DecidableEq

/-- `Endpoint.__init__(name)` in compatibility-shim mode
(`_PROTON_VERSION < (0, 8)`): state starts at `STATE_UNINIT` and the
per-side expected-event queues are `[REMOTE_OPENED, REMOTE_CLOSED]` and
`[LOCAL_OPENED, LOCAL_CLOSED]`. -/
def Endpoint.init (name : String) : Endpoint :=
  { name := name
    state := STATE_UNINIT
    remote_events := [REMOTE_OPENED, REMOTE_CLOSED]
    local_events := [LOCAL_OPENED, LOCAL_CLOSED] }

/-- `Endpoint._process_endpoint_event(event)`.  Returns the updated
endpoint and the trace of hook invocations, or `none` if the Python code
would raise (`EVENT_NAMES[event]` out of range, `_FSM[self._state]`
missing, or a `STATE_NAMES` index out of range in a log statement). -/
def _process_endpoint_event (ep : Endpoint) (event : Nat) :
    Option (Endpoint × List HookCall) :=
  match EVENT_NAMES.get? event with
  | none => none
  | some evName =>
    match _FSM ep.state with
    | none => none
    | some state_fsm =>
      match state_fsm event with
      | none =>
        match STATE_NAMES.get? ep.state with
        | none => none
        | some stName =>
          let ep' : Endpoint := { ep with state := STATE_ERROR }
          some (ep', [HookCall.error ep'.state
            ("invalid event=" ++ evName ++ " in state=" ++ stName)])
      | some entry =>
        match STATE_NAMES.get? ep.state, STATE_NAMES.get? entry.1 with
        | some _, some _ =>
          let ep' : Endpoint := { ep with state := entry.1 }
          match entry.2 with
          | none => some (ep', [])
          | some a => some (ep', [actionCall a ep'.state])
        | _, _ => none

/-- `Endpoint._process_remote_state` (compatibility-shim mode): pop the
head of the remote expected-event queue and dispatch it; if the queue is
empty the `IndexError` is caught and the notification is ignored. -/
def _process_remote_state (ep : Endpoint) : Option (Endpoint × List HookCall) :=
  match ep.remote_events with
  | [] => some (ep, [])
  | e :: rest => _process_endpoint_event { ep with remote_events := rest } e

/-- `Endpoint._process_local_state` (compatibility-shim mode): pop the
head of the local expected-event queue and dispatch it; if the queue is
empty the `IndexError` is caught and the notification is ignored. -/
def _process_local_state (ep : Endpoint) : Option (Endpoint × List HookCall) :=
  match ep.local_events with
  | [] => some (ep, [])
  | e :: rest => _process_endpoint_event { ep with local_events := rest } e

/-- Dispatch a whole sequence of events, concatenating the hook traces. -/
def runEvents (ep : Endpoint) (events : List Nat) :
    Option (Endpoint × List HookCall) :=
  match events with
  | [] => some (ep, [])
  | e :: rest =>
    match _process_endpoint_event ep e with
    | none => none
    | some (ep', tr) =>
      match runEvents ep' rest with
      | none => none
      | some (ep'', tr') => some (ep'', tr ++ tr')

/-- The transition-table entry for `(state, event)`:
`_FSM[state].get(event)` (with `none` also when the state itself is not a
key of the outer dict). -/
def fsmEntry (s e : Nat) : Option (Nat × Option Action) :=
  match _FSM s with
  | none => none
  | some row => row e

/-- The error message built by the table-miss branch of
`_process_endpoint_event`. -/
def errorMsg (s e : Nat) : String :=
  "invalid event=" ++ (EVENT_NAMES.get? e).getD "" ++
    " in state=" ++ (STATE_NAMES.get? s).getD ""

/-- The state after dispatching `e` in state `s` (for `s` in the table's
domain): the table's next state on a hit, `STATE_ERROR` on a miss. -/
def stepState (s e : Nat) : Nat :=
  match fsmEntry s e with
  | none => STATE_ERROR
  | some entry => entry.1

/-- The hook-invocation trace produced by dispatching `e` in state `s`. -/
def stepTrace (s e : Nat) : List HookCall :=
  match fsmEntry s e with
  | none => [HookCall.error STATE_ERROR (errorMsg s e)]
  | some entry =>
    match entry.2 with
    | none => []
    | some a => [actionCall a entry.1]

/-- Replacing the state of an endpoint with its own state is the
identity. -/
theorem set_state_self (ep : Endpoint) (v : Nat) (h : ep.state = v) :
    ({ ep with state := v } : Endpoint) = ep := by
  cases ep
  cases h
  rfl

/-- For every state in the table's domain and every one of the four
events, dispatch succeeds and is described by `stepState`/`stepTrace`. -/
theorem process_eq (ep : Endpoint) (e : Nat) (hs : ep.state < 10) (he : e < 4) :
    _process_endpoint_event ep e =
      some ({ ep with state := stepState ep.state e }, stepTrace ep.state e) := by
  obtain ⟨n, s, rq, lq⟩ := ep
  have hs' : s < 10 := hs
  interval_cases s <;> interval_cases e <;> rfl

/-- C1: for every state `S` and event `E` with no transition-table entry,
dispatching `E` from `S` sets the state to `STATE_ERROR`, invokes the
error hook exactly once with a message containing the event name and the
old state name, invokes no other entry action; and every table hit from a
non-Error state leads to a non-Error state, so the table-miss path is the
only way a transition enters `STATE_ERROR` from a non-Error state. -/
theorem table_miss_enters_error (s e : Nat) (hs : s < 10) (he : e < 4)
    (hmiss : fsmEntry s e = none) :
    (∀ ep : Endpoint, ep.state = s →
      _process_endpoint_event ep e =
        some ({ ep with state := STATE_ERROR },
              [HookCall.error STATE_ERROR (errorMsg s e)])) ∧
    (∃ pre mid, errorMsg s e =
      pre ++ (EVENT_NAMES.get? e).getD "" ++ mid ++ (STATE_NAMES.get? s).getD "") ∧
    (∀ s' < 10, ∀ e' < 4, s' ≠ STATE_ERROR →
      stepState s' e' = STATE_ERROR → fsmEntry s' e' = none) := by
  refine ⟨?_, ⟨"invalid event=", " in state=", rfl⟩, ?_⟩
  · intro ep hst
    rw [process_eq ep e (by rw [hst]; exact hs) he, hst]
    simp [stepState, stepTrace, hmiss]
  · intro a ha b hb hne hstep
    interval_cases a <;> interval_cases b <;>
      first
        | rfl
        | exact absurd hstep (by decide)
        | exact absurd rfl hne

/-- Witness for `table_miss_enters_error` at the concrete miss
`(STATE_CLOSED, LOCAL_OPENED)`. -/
theorem table_miss_enters_error_witness :
    _process_endpoint_event ⟨"w1", STATE_CLOSED, [], []⟩ LOCAL_OPENED =
      some (⟨"w1", STATE_ERROR, [], []⟩,
            [HookCall.error STATE_ERROR (errorMsg STATE_CLOSED LOCAL_OPENED)]) :=
  (table_miss_enters_error STATE_CLOSED LOCAL_OPENED (by decide) (by decide)
      (by decide)).1 ⟨"w1", STATE_CLOSED, [], []⟩ rfl

/-- C2 counterexample: the claim says `STATE_CLOSED` is absorbing under
every one of the four events, but dispatching `LOCAL_OPENED` while
`Closed` moves the state to `STATE_ERROR`, a different state. -/
theorem closed_not_absorbing_cex :
    _process_endpoint_event ⟨"c2", STATE_CLOSED, [], []⟩ LOCAL_OPENED =
      some (⟨"c2", STATE_ERROR, [], []⟩,
        [HookCall.error STATE_ERROR
          "invalid event=LOCAL_OPENED in state=STATE_CLOSED"]) ∧
    STATE_ERROR ≠ STATE_CLOSED :=
  ⟨by rfl, by decide⟩

/-- Helper for the amended C2: from a terminal state (`Closed` or
`Error`) every event sequence runs to completion and stays in the
terminal set, and from `Error` nothing changes and no hook fires. -/
theorem runEvents_terminal (events : List Nat) :
    ∀ ep : Endpoint, (∀ e ∈ events, e < 4) →
      ep.state = STATE_CLOSED ∨ ep.state = STATE_ERROR →
      ∃ ep' tr, runEvents ep events = some (ep', tr) ∧
        (ep'.state = STATE_CLOSED ∨ ep'.state = STATE_ERROR) ∧
        (ep.state = STATE_ERROR → ep' = ep ∧ tr = []) := by
  induction events with
  | nil =>
    intro ep _ hterm
    exact ⟨ep, [], rfl, hterm, fun _ => ⟨rfl, rfl⟩⟩
  | cons e rest ih =>
    intro ep hev hterm
    have he : e < 4 := hev e (by simp)
    have hs : ep.state < 10 := by rcases hterm with h | h <;> rw [h] <;> decide
    have hstep := process_eq ep e hs he
    have hmem : stepState ep.state e = STATE_CLOSED ∨
        stepState ep.state e = STATE_ERROR := by
      rcases hterm with h | h <;> rw [h] <;> interval_cases e <;> decide
    obtain ⟨ep', tr', hrun, hterm', herr⟩ :=
      ih { ep with state := stepState ep.state e }
        (fun x hx => hev x (by simp [hx])) hmem
    refine ⟨ep', stepTrace ep.state e ++ tr', ?_, hterm', ?_⟩
    · unfold runEvents
      rw [hstep]
      simp only [hrun]
    · intro hE
      have h9 : stepState ep.state e = STATE_ERROR := by
        rw [hE]; interval_cases e <;> decide
      have hfix : ep.state = stepState ep.state e := by rw [h9]; exact hE
      have heq : ({ ep with state := stepState ep.state e } : Endpoint) = ep :=
        set_state_self ep _ hfix
      rw [heq] at herr
      obtain ⟨h1, h2⟩ := herr hE
      have htr0 : stepTrace ep.state e = [] := by
        rw [hE]; interval_cases e <;> decide
      exact ⟨h1, by simp [htr0, h2]⟩

/-- C2 (amended): `STATE_ERROR` is absorbing under all four events;
`STATE_CLOSED` is absorbing only under `REMOTE_CLOSED`, while the other
three events move it to `STATE_ERROR`; hence once the state is in the
terminal set containing `Closed` and `Error`, every sequence of events
keeps it in that set, and from `Error` nothing ever changes. -/
theorem terminal_set_absorbing (ep : Endpoint) (events : List Nat)
    (hev : ∀ e ∈ events, e < 4)
    (hterm : ep.state = STATE_CLOSED ∨ ep.state = STATE_ERROR) :
    (∃ ep' tr, runEvents ep events = some (ep', tr) ∧
       (ep'.state = STATE_CLOSED ∨ ep'.state = STATE_ERROR) ∧
       (ep.state = STATE_ERROR → ep' = ep ∧ tr = [])) ∧
    stepState STATE_CLOSED REMOTE_CLOSED = STATE_CLOSED ∧
    (∀ e < 4, e ≠ REMOTE_CLOSED → stepState STATE_CLOSED e = STATE_ERROR) ∧
    (∀ e < 4, stepState STATE_ERROR e = STATE_ERROR) :=
  ⟨runEvents_terminal events ep hev hterm, by decide, by decide, by decide⟩

/-- Witness for `terminal_set_absorbing`: from `STATE_ERROR`, the
sequence `[LOCAL_OPENED]` leaves the endpoint unchanged with no hooks. -/
theorem terminal_set_absorbing_witness :
    runEvents ⟨"w2", STATE_ERROR, [], []⟩ [LOCAL_OPENED] =
      some (⟨"w2", STATE_ERROR, [], []⟩, []) := by
  obtain ⟨ep', tr, hrun, _, herr⟩ :=
    (terminal_set_absorbing ⟨"w2", STATE_ERROR, [], []⟩ [LOCAL_OPENED]
      (by decide) (Or.inr rfl)).1
  obtain ⟨h1, h2⟩ := herr rfl
  rw [h1, h2] at hrun
  exact hrun

/-- On a table hit carrying an entry action, whether the next state
differs from the current one (trivially `true` on other entries). -/
def actionEdgeChangesState (s e : Nat) : Bool :=
  match fsmEntry s e with
  | some (n, some _) => n ≠ s
  | _ => true

/-- C3: for every `(S, E)` table entry with an entry action, dispatch
first stores the new state and only then invokes the action, so the
action observes the post-transition state (it is recorded with
`entry.1`, the new state, which on every action-carrying edge differs
from the pre-transition state). -/
theorem action_observes_post_state (s e : Nat) (hs : s < 10) (he : e < 4)
    (entry : Nat × Option Action) (a : Action)
    (hhit : fsmEntry s e = some entry) (hact : entry.2 = some a) :
    (∀ ep : Endpoint, ep.state = s →
      _process_endpoint_event ep e =
        some ({ ep with state := entry.1 }, [actionCall a entry.1])) ∧
    (∀ s' < 10, ∀ e' < 4, actionEdgeChangesState s' e' = true) := by
  refine ⟨?_, by decide⟩
  intro ep hst
  rw [process_eq ep e (by rw [hst]; exact hs) he, hst]
  simp [stepState, stepTrace, hhit, hact]

/-- Witness for `action_observes_post_state` at the hit
`(STATE_UNINIT, REMOTE_OPENED)`: the requested hook observes
`STATE_REQUESTED`, the post-transition state. -/
theorem action_observes_post_state_witness :
    _process_endpoint_event ⟨"w3", STATE_UNINIT, [], []⟩ REMOTE_OPENED =
      some (⟨"w3", STATE_REQUESTED, [], []⟩,
            [HookCall.requested STATE_REQUESTED]) :=
  (action_observes_post_state STATE_UNINIT REMOTE_OPENED (by decide) (by decide)
      (STATE_REQUESTED, some Action.requested) Action.requested
      (by decide) rfl).1 ⟨"w3", STATE_UNINIT, [], []⟩ rfl

/-- C4: dispatching any of the four events while in `STATE_ERROR` leaves
the endpoint unchanged and invokes no hook at all — all four events are
legal in `Error` and the error hook never fires again after the
transition into `Error`. -/
theorem error_absorbing_no_hooks (ep : Endpoint) (e : Nat) (he : e < 4)
    (hs : ep.state = STATE_ERROR) :
    _process_endpoint_event ep e = some (ep, []) := by
  rw [process_eq ep e (by rw [hs]; decide) he]
  have h1 : stepState ep.state e = ep.state := by
    rw [hs]; interval_cases e <;> decide
  have h2 : stepTrace ep.state e = [] := by
    rw [hs]; interval_cases e <;> decide
  rw [h1, h2, set_state_self ep ep.state rfl]

/-- Witness for `error_absorbing_no_hooks` at `LOCAL_OPENED`. -/
theorem error_absorbing_no_hooks_witness :
    _process_endpoint_event ⟨"w4", STATE_ERROR, [], []⟩ LOCAL_OPENED =
      some (⟨"w4", STATE_ERROR, [], []⟩, []) :=
  error_absorbing_no_hooks ⟨"w4", STATE_ERROR, [], []⟩ LOCAL_OPENED
    (by decide) rfl

/-- C5: the happy-path sequence LocalOpened, RemoteOpened, LocalClosed,
RemoteClosed passes through `STATE_PENDING`, `STATE_ACTIVE`,
`STATE_CLOSING` and ends in `STATE_CLOSED`, firing the active hook
exactly once and the closed hook exactly once; the symmetric sequence
RemoteOpened, LocalOpened, LocalClosed, RemoteClosed passes through
`STATE_REQUESTED` and `STATE_ACTIVE` to `STATE_CLOSED`, firing
requested, then active, then closed. -/
theorem happy_path_and_symmetric :
    (runEvents (Endpoint.init "a") [LOCAL_OPENED] =
      some (⟨"a", STATE_PENDING, [REMOTE_OPENED, REMOTE_CLOSED],
             [LOCAL_OPENED, LOCAL_CLOSED]⟩, [])) ∧
    (runEvents (Endpoint.init "a") [LOCAL_OPENED, REMOTE_OPENED] =
      some (⟨"a", STATE_ACTIVE, [REMOTE_OPENED, REMOTE_CLOSED],
             [LOCAL_OPENED, LOCAL_CLOSED]⟩,
            [HookCall.active STATE_ACTIVE])) ∧
    (runEvents (Endpoint.init "a") [LOCAL_OPENED, REMOTE_OPENED, LOCAL_CLOSED] =
      some (⟨"a", STATE_CLOSING, [REMOTE_OPENED, REMOTE_CLOSED],
             [LOCAL_OPENED, LOCAL_CLOSED]⟩,
            [HookCall.active STATE_ACTIVE])) ∧
    (runEvents (Endpoint.init "a")
        [LOCAL_OPENED, REMOTE_OPENED, LOCAL_CLOSED, REMOTE_CLOSED] =
      some (⟨"a", STATE_CLOSED, [REMOTE_OPENED, REMOTE_CLOSED],
             [LOCAL_OPENED, LOCAL_CLOSED]⟩,
            [HookCall.active STATE_ACTIVE, HookCall.closed STATE_CLOSED])) ∧
    (runEvents (Endpoint.init "b") [REMOTE_OPENED] =
      some (⟨"b", STATE_REQUESTED, [REMOTE_OPENED, REMOTE_CLOSED],
             [LOCAL_OPENED, LOCAL_CLOSED]⟩,
            [HookCall.requested STATE_REQUESTED])) ∧
    (runEvents (Endpoint.init "b") [REMOTE_OPENED, LOCAL_OPENED] =
      some (⟨"b", STATE_ACTIVE, [REMOTE_OPENED, REMOTE_CLOSED],
             [LOCAL_OPENED, LOCAL_CLOSED]⟩,
            [HookCall.requested STATE_REQUESTED,
             HookCall.active STATE_ACTIVE])) ∧
    (runEvents (Endpoint.init "b")
        [REMOTE_OPENED, LOCAL_OPENED, LOCAL_CLOSED, REMOTE_CLOSED] =
      some (⟨"b", STATE_CLOSED, [REMOTE_OPENED, REMOTE_CLOSED],
             [LOCAL_OPENED, LOCAL_CLOSED]⟩,
            [HookCall.requested STATE_REQUESTED,
             HookCall.active STATE_ACTIVE,
             HookCall.closed STATE_CLOSED])) :=
  ⟨rfl, rfl, rfl, rfl, rfl, rfl, rfl⟩

/-- C6: in compatibility-shim mode a side's undifferentiated change
notifications are consumed in queue order (Opened then Closed, the
queues set by `Endpoint.init`), and a notification arriving when that
side's queue is already empty is discarded silently: no failure, no hook,
and the endpoint — state and the other side's queue included — is
returned unchanged. -/
theorem compat_shim_order_and_discard (ep : Endpoint) :
    (∀ e rest, ep.remote_events = e :: rest →
      _process_remote_state ep =
        _process_endpoint_event { ep with remote_events := rest } e) ∧
    (∀ e rest, ep.local_events = e :: rest →
      _process_local_state ep =
        _process_endpoint_event { ep with local_events := rest } e) ∧
    (ep.remote_events = [] → _process_remote_state ep = some (ep, [])) ∧
    (ep.local_events = [] → _process_local_state ep = some (ep, [])) ∧
    ((Endpoint.init "a").remote_events = [REMOTE_OPENED, REMOTE_CLOSED] ∧
     (Endpoint.init "a").local_events = [LOCAL_OPENED, LOCAL_CLOSED]) ∧
    (_process_remote_state (Endpoint.init "a") =
      some (⟨"a", STATE_REQUESTED, [REMOTE_CLOSED],
             [LOCAL_OPENED, LOCAL_CLOSED]⟩,
            [HookCall.requested STATE_REQUESTED])) ∧
    (_process_remote_state ⟨"a", STATE_REQUESTED, [REMOTE_CLOSED],
        [LOCAL_OPENED, LOCAL_CLOSED]⟩ =
      some (⟨"a", STATE_ABANDONED, [], [LOCAL_OPENED, LOCAL_CLOSED]⟩, [])) ∧
    (_process_remote_state ⟨"a", STATE_ABANDONED, [],
        [LOCAL_OPENED, LOCAL_CLOSED]⟩ =
      some (⟨"a", STATE_ABANDONED, [], [LOCAL_OPENED, LOCAL_CLOSED]⟩, [])) := by
  refine ⟨?_, ?_, ?_, ?_, ⟨rfl, rfl⟩, rfl, rfl, rfl⟩
  · intro e rest h
    simp [_process_remote_state, h]
  · intro e rest h
    simp [_process_local_state, h]
  · intro h
    simp [_process_remote_state, h]
  · intro h
    simp [_process_local_state, h]

/-- Witness for `compat_shim_order_and_discard`: a remote notification
with an exhausted remote queue is silently discarded. -/
theorem compat_shim_order_and_discard_witness :
    _process_remote_state ⟨"w6", STATE_CLOSED, [], [LOCAL_CLOSED]⟩ =
      some (⟨"w6", STATE_CLOSED, [], [LOCAL_CLOSED]⟩, []) :=
  (compat_shim_order_and_discard
    ⟨"w6", STATE_CLOSED, [], [LOCAL_CLOSED]⟩).2.2.1 rfl

/-- C7: the early-cancel sequence LocalOpened, LocalClosed,
RemoteOpened, RemoteClosed passes through `STATE_PENDING`,
`STATE_CANCELLED`, `STATE_CLOSING` and ends in `STATE_CLOSED`, and the
RemoteOpened edge out of `STATE_CANCELLED` invokes no entry action (the
hook trace is still empty after three events; only the final step fires
the closed hook). -/
theorem early_cancel_path :
    (runEvents (Endpoint.init "d") [LOCAL_OPENED] =
      some (⟨"d", STATE_PENDING, [REMOTE_OPENED, REMOTE_CLOSED],
             [LOCAL_OPENED, LOCAL_CLOSED]⟩, [])) ∧
    (runEvents (Endpoint.init "d") [LOCAL_OPENED, LOCAL_CLOSED] =
      some (⟨"d", STATE_CANCELLED, [REMOTE_OPENED, REMOTE_CLOSED],
             [LOCAL_OPENED, LOCAL_CLOSED]⟩, [])) ∧
    (runEvents (Endpoint.init "d")
        [LOCAL_OPENED, LOCAL_CLOSED, REMOTE_OPENED] =
      some (⟨"d", STATE_CLOSING, [REMOTE_OPENED, REMOTE_CLOSED],
             [LOCAL_OPENED, LOCAL_CLOSED]⟩, [])) ∧
    (runEvents (Endpoint.init "d")
        [LOCAL_OPENED, LOCAL_CLOSED, REMOTE_OPENED, REMOTE_CLOSED] =
      some (⟨"d", STATE_CLOSED, [REMOTE_OPENED, REMOTE_CLOSED],
             [LOCAL_OPENED, LOCAL_CLOSED]⟩,
            [HookCall.closed STATE_CLOSED])) :=
  ⟨rfl, rfl, rfl, rfl⟩

/-- C8: from `STATE_CLOSED`, any number of repeated RemoteClosed events
leaves the endpoint in `STATE_CLOSED` (unchanged, in fact) and invokes
no hook at all. -/
theorem closed_remote_closed_self_loop (ep : Endpoint)
    (hs : ep.state = STATE_CLOSED) :
    ∀ n : Nat, runEvents ep (List.replicate n REMOTE_CLOSED) = some (ep, []) := by
  have hstep : _process_endpoint_event ep REMOTE_CLOSED = some (ep, []) := by
    rw [process_eq ep REMOTE_CLOSED (by rw [hs]; decide) (by decide)]
    have h1 : stepState ep.state REMOTE_CLOSED = ep.state := by rw [hs]; decide
    have h2 : stepTrace ep.state REMOTE_CLOSED = [] := by rw [hs]; decide
    rw [h1, h2, set_state_self ep ep.state rfl]
  intro n
  induction n with
  | zero => rfl
  | succ k ih =>
    rw [List.replicate_succ]
    unfold runEvents
    rw [hstep]
    simp only [ih]
    rfl

/-- Witness for `closed_remote_closed_self_loop` at three repetitions. -/
theorem closed_remote_closed_self_loop_witness :
    runEvents ⟨"w8", STATE_CLOSED, [], []⟩
        (List.replicate 3 REMOTE_CLOSED) =
      some (⟨"w8", STATE_CLOSED, [], []⟩, []) :=
  closed_remote_closed_self_loop ⟨"w8", STATE_CLOSED, [], []⟩ rfl 3

/-- C9: for every one of the ten states and every one of the four
events, dispatch completes without raising (the outer table lookup
succeeds and a missing event entry is handled by the error branch,
yielding `some` rather than `none`), and the resulting state is again
one of the ten states. -/
theorem dispatch_total_and_state_closed (s e : Nat) (hs : s < 10) (he : e < 4) :
    (∀ ep : Endpoint, ep.state = s →
      _process_endpoint_event ep e =
        some ({ ep with state := stepState s e }, stepTrace s e)) ∧
    stepState s e < 10 := by
  refine ⟨?_, ?_⟩
  · intro ep hst
    rw [process_eq ep e (by rw [hst]; exact hs) he, hst]
  · interval_cases s <;> interval_cases e <;> decide

/-- Witness for `dispatch_total_and_state_closed` at the miss
`(STATE_CANCELLED, LOCAL_OPENED)`. -/
theorem dispatch_total_and_state_closed_witness :
    _process_endpoint_event ⟨"w9", STATE_CANCELLED, [], []⟩ LOCAL_OPENED =
      some (⟨"w9", STATE_ERROR, [], []⟩,
            [HookCall.error STATE_ERROR
              (errorMsg STATE_CANCELLED LOCAL_OPENED)]) :=
  (dispatch_total_and_state_closed STATE_CANCELLED LOCAL_OPENED
      (by decide) (by decide)).1 ⟨"w9", STATE_CANCELLED, [], []⟩ rfl

/-- C10: dispatch mutates only the state field: whenever
`_process_endpoint_event` returns an updated endpoint, its name and both
expected-event queues are those of the input endpoint (the default entry
actions and the default error hook only log and mutate nothing). -/
theorem dispatch_frame (ep ep' : Endpoint) (e : Nat) (tr : List HookCall)
    (h : _process_endpoint_event ep e = some (ep', tr)) :
    ep'.name = ep.name ∧ ep'.remote_events = ep.remote_events ∧
      ep'.local_events = ep.local_events := by
  unfold _process_endpoint_event at h
  repeat' split at h
  all_goals simp_all
  all_goals (obtain ⟨h1, h2⟩ := h; subst h1; exact ⟨rfl, rfl, rfl⟩)

/-- Witness for `dispatch_frame` on a hit from `STATE_UNINIT`. -/
theorem dispatch_frame_witness :
    (⟨"w10", STATE_PENDING, [9], [7]⟩ : Endpoint).name =
        (⟨"w10", STATE_UNINIT, [9], [7]⟩ : Endpoint).name ∧
      (⟨"w10", STATE_PENDING, [9], [7]⟩ : Endpoint).remote_events =
        (⟨"w10", STATE_UNINIT, [9], [7]⟩ : Endpoint).remote_events ∧
      (⟨"w10", STATE_PENDING, [9], [7]⟩ : Endpoint).local_events =
        (⟨"w10", STATE_UNINIT, [9], [7]⟩ : Endpoint).local_events :=
  dispatch_frame ⟨"w10", STATE_UNINIT, [9], [7]⟩
    ⟨"w10", STATE_PENDING, [9], [7]⟩ LOCAL_OPENED [] rfl

end Pyngus
